import Mathlib

set_option maxRecDepth 100000

/-!
Verification development for the EDA-with-R-and-BigQuery tutorial notebook
and the mlflow_gcp MLproject training-job manifest.

The notebook builds a templated SQL query over the natality dataset, runs it,
splits the result into train and eval sets by a hash-derived key modulo 100,
writes the two splits as CSV files and uploads them with shell commands.
The definitions below are a shallow embedding of those pieces, translated
from the source cells.
-/

/-- The WHERE predicate of the train split query:
`MOD(CAST(key AS INT64), 100) <= 75`.  The key is the non-negative
integer `ABS(FARM_FINGERPRINT(...))` rendered as a string; we model the
cast-back as the integer itself. -/
def trainPred (key : Nat) : Bool := key % 100 ≤ 75

/-- The WHERE predicate of the eval split query:
`MOD(CAST(key AS INT64), 100) > 75`. -/
def evalPred (key : Nat) : Bool := 75 < key % 100

/-- The key expression of the base query,
`ABS(FARM_FINGERPRINT(CONCAT(...)))`, applied to the fingerprint value
`v` (an INT64 returned by the external FARM_FINGERPRINT): its absolute
value as a natural number. -/
def absKey (v : Int) : Nat := v.natAbs

theorem evalPred_eq_not_trainPred (k : Nat) : evalPred k = !trainPred k := by
  unfold trainPred evalPred
  rcases Nat.lt_or_ge 75 (k % 100) with h | h
  · simp [h, Nat.not_le.mpr h]
  · simp [h, Nat.not_lt.mpr h]

theorem length_filter_train_add_eval (l : List Nat) :
    (l.filter trainPred).length + (l.filter evalPred).length = l.length := by
  induction l with
  | nil => rfl
  | cons k t ih =>
    by_cases h : trainPred k = true
    · simp [List.filter, h, evalPred_eq_not_trainPred, ih]
      omega
    · simp [List.filter, h, evalPred_eq_not_trainPred, ih]
      omega

/-- C1: For every record key (a non-negative integer), exactly one of the
train predicate `MOD(key, 100) <= 75` and the eval predicate
`MOD(key, 100) > 75` holds; hence on any list of keys the train filter and
the eval filter are disjoint and their sizes sum to the size of the list:
every record lands in exactly one of the two result sets. -/
theorem train_eval_split_partition :
    (∀ k : Nat, (trainPred k = true ∧ evalPred k = false) ∨
      (trainPred k = false ∧ evalPred k = true)) ∧
    (∀ l : List Nat,
      (l.filter trainPred).length + (l.filter evalPred).length = l.length ∧
      ∀ k ∈ l, (k ∈ l.filter trainPred ↔ k ∉ l.filter evalPred)) := by
  constructor
  · intro k
    by_cases h : trainPred k = true
    · left
      exact ⟨h, by simp [evalPred_eq_not_trainPred, h]⟩
    · right
      exact ⟨by simpa using h, by simp [evalPred_eq_not_trainPred]; simpa using h⟩
  · intro l
    refine ⟨length_filter_train_add_eval l, ?_⟩
    intro k hk
    simp [List.mem_filter, hk, evalPred_eq_not_trainPred]

/-- C2: The split assignment is a function of `key % 100` alone: any two
keys with equal residues modulo 100 (in particular two evaluations on the
same key) receive the same train/eval assignment. -/
theorem split_deterministic (k₁ k₂ : Nat) (h : k₁ % 100 = k₂ % 100) :
    trainPred k₁ = trainPred k₂ ∧ evalPred k₁ = evalPred k₂ := by
  constructor
  · simp [trainPred, h]
  · simp [evalPred, h]

theorem split_deterministic_witness :
    (5 : Nat) % 100 = (105 : Nat) % 100 ∧
      (trainPred 5 = trainPred 105 ∧ evalPred 5 = evalPred 105) :=
  ⟨by decide, split_deterministic 5 105 (by decide)⟩

/-- C3: The key is `ABS(v)` for a fingerprint `v` in the INT64 range with
`ABS` not overflowing, so it is a non-negative integer below `2^63`; the
partition value `key % 100` always lies in `0..99`; the train predicate
holds for exactly the 76 residues `0..75` and the eval predicate for
exactly the 24 residues `76..99`. -/
theorem split_residues (v : Int) (hlo : -(2 ^ 63) ≤ v) (hhi : v < 2 ^ 63)
    (hne : v ≠ -(2 ^ 63)) :
    absKey v < 2 ^ 63 ∧ absKey v % 100 < 100 ∧
    ((Finset.range 100).filter (fun r => trainPred r = true)).card = 76 ∧
    ((Finset.range 100).filter (fun r => evalPred r = true)).card = 24 := by
  refine ⟨?_, Nat.mod_lt _ (by decide), by decide, by decide⟩
  unfold absKey
  omega

theorem split_residues_witness :
    (-(2 ^ 63) ≤ (-123 : Int) ∧ (-123 : Int) < 2 ^ 63 ∧ (-123 : Int) ≠ -(2 ^ 63)) ∧
    (absKey (-123) < 2 ^ 63 ∧ absKey (-123) % 100 < 100 ∧
      ((Finset.range 100).filter (fun r => trainPred r = true)).card = 76 ∧
      ((Finset.range 100).filter (fun r => evalPred r = true)).card = 24) :=
  ⟨⟨by decide, by decide, by decide⟩,
    split_residues (-123) (by decide) (by decide) (by decide)⟩

/-! ### The templated base query and the sprintf substitutions -/

/-- Substitution of the R `sprintf` format directive `%s` by a single
string argument: every occurrence of the two-character sequence percent-s
in the format is replaced by the argument, all other characters are kept.
This models the behaviour of `sprintf(fmt, x)` on the formats of the
notebook, which use only the `%s` directive (extra arguments with no
remaining directive are ignored by R, so a directive-free format is
returned unchanged, as the empty substitution here). -/
def substPercentS : List Char → List Char → List Char
  | [], _ => []
  | [c], _ => [c]
  | c :: d :: rest, arg =>
    if c = '%' ∧ d = 's' then arg ++ substPercentS rest arg
    else c :: substPercentS (d :: rest) arg

/-- The number of `%s` directives in a format string. -/
def countPercentS : List Char → Nat
  | [] => 0
  | [_] => 0
  | c :: d :: rest =>
    if c = '%' ∧ d = 's' then 1 + countPercentS rest
    else countPercentS (d :: rest)

/-- `sprintf(fmt, arg)` on a string-valued argument. -/
def sprintfS (fmt arg : String) : String := ⟨substPercentS fmt.data arg.data⟩

/-- The templated base natality query of the notebook, verbatim. -/
def sql_query : String := "\n    SELECT\n      ROUND(weight_pounds, 2) AS weight_pounds ,\n      is_male,\n      mother_age,\n      plurality,\n      gestation_weeks,\n      cigarette_use,\n      alcohol_use,\n      CAST(ABS(FARM_FINGERPRINT(CONCAT(\n        CAST(YEAR AS STRING), CAST(month AS STRING), \n        CAST(weight_pounds AS STRING)))\n        ) AS STRING) AS key\n    FROM\n        publicdata.samples.natality\n    WHERE \n      year > 2000\n      AND weight_pounds > 0\n      AND mother_age > 0\n      AND plurality > 0\n      AND gestation_weeks > 0\n      AND month > 0\n    LIMIT %s\n"

/-- The text of `sql_query` before its final `LIMIT %s` line. -/
def sqlTrunk : String := "\n    SELECT\n      ROUND(weight_pounds, 2) AS weight_pounds ,\n      is_male,\n      mother_age,\n      plurality,\n      gestation_weeks,\n      cigarette_use,\n      alcohol_use,\n      CAST(ABS(FARM_FINGERPRINT(CONCAT(\n        CAST(YEAR AS STRING), CAST(month AS STRING), \n        CAST(weight_pounds AS STRING)))\n        ) AS STRING) AS key\n    FROM\n        publicdata.samples.natality\n    WHERE \n      year > 2000\n      AND weight_pounds > 0\n      AND mother_age > 0\n      AND plurality > 0\n      AND gestation_weeks > 0\n      AND month > 0\n    "

/-- The `LIMIT` keyword followed by the `%s` directive. -/
def limitPS : String := "LIMIT %s"

/-- The `LIMIT` keyword followed by a space. -/
def limitSp : String := "LIMIT "

/-- A newline. -/
def newlineS : String := "\n"

theorem substPercentS_placeholder (rest arg : List Char) :
    substPercentS ('%' :: 's' :: rest) arg = arg ++ substPercentS rest arg := by
  simp [substPercentS]

theorem substPercentS_clean_append (l rest arg : List Char)
    (h : ∀ c ∈ l, c ≠ '%') :
    substPercentS (l ++ rest) arg = l ++ substPercentS rest arg := by
  induction l with
  | nil => simp
  | cons c t ih =>
    have hc : c ≠ '%' := h c (List.mem_cons_self c t)
    have ht : ∀ x ∈ t, x ≠ '%' := fun x hx => h x (List.mem_cons_of_mem c hx)
    cases hsh : t ++ rest with
    | nil =>
      simp [List.append_eq_nil] at hsh
      simp [hsh.1, hsh.2, substPercentS]
    | cons d u =>
      simp only [List.cons_append, hsh]
      rw [substPercentS]
      simp [hc, ← hsh, ih ht]

theorem sql_template_general (arg : String) :
    sprintfS sql_query arg = sqlTrunk ++ limitSp ++ arg ++ newlineS := by
  have hdecomp : sql_query.data = (sqlTrunk ++ limitSp).data ++ ('%' :: 's' :: ['\n']) := by
    decide
  have hclean : ∀ c ∈ (sqlTrunk ++ limitSp).data, c ≠ '%' := by decide
  apply String.ext
  show substPercentS sql_query.data arg.data = _
  rw [hdecomp, substPercentS_clean_append _ _ _ hclean, substPercentS_placeholder]
  have h1 : substPercentS ['\n'] arg.data = ['\n'] := rfl
  rw [h1]
  simp [String.data_append, newlineS]

/-- C4: The base query template contains exactly one `%s` directive, it is
located in the `LIMIT` clause (the template is its trunk followed by the
literal text `LIMIT %s` and a newline), and substituting any row-limit
value `arg` with sprintf changes the template only there: the result is the
same trunk followed by `LIMIT arg` and the newline. -/
theorem sql_query_single_placeholder :
    countPercentS sql_query.data = 1 ∧
    sql_query = sqlTrunk ++ limitPS ++ newlineS ∧
    ∀ arg : String, sprintfS sql_query arg = sqlTrunk ++ limitSp ++ arg ++ newlineS :=
  ⟨by decide, by decide, sql_template_general⟩

/-- The row limit the notebook substitutes, `sample_size <- 10000`. -/
def sample_size : Nat := 10000

/-- The query string after the first substitution,
`sql_query <- sprintf(sql_query, sample_size)` in the execution step. -/
def sql_query_filled : String := sprintfS sql_query (toString sample_size)

/-- R `paste(...)`: joins its arguments with a single space. -/
def rPaste (parts : List String) : String := String.intercalate (" ") parts

/-- The fixed first paste argument of both split queries. -/
def selectFromOpen : String := "SELECT * FROM ("

/-- The closing paste argument of the train split query. -/
def whereTrainClose : String := ") WHERE MOD(CAST(key AS INT64), 100) <= 75"

/-- The closing paste argument of the eval split query. -/
def whereEvalClose : String := ") WHERE MOD(CAST(key AS INT64), 100) > 75"

/-- The train split query of the split-preparation step: it pastes around
the value of `sql_query` after a second `sprintf(sql_query, sample_size)`
application to the already-substituted string. -/
def train_query : String :=
  rPaste [selectFromOpen, sprintfS sql_query_filled (toString sample_size),
    whereTrainClose]

/-- The eval split query of the split-preparation step. -/
def eval_query : String :=
  rPaste [selectFromOpen, sprintfS sql_query_filled (toString sample_size),
    whereEvalClose]

/-- The inner limit clause after substitution of 10000. -/
def limitFilled : String := "LIMIT 10000"

/-- C5: The row-limit templating is applied twice to the same variable.
The first application turns the trunk-plus-`LIMIT %s` template into the
trunk plus `LIMIT 10000`; the second application of sprintf to that
already-substituted string (which has no remaining `%s` directive) returns
it unchanged, so both split queries paste around exactly the once-filled
query and embed the same `LIMIT 10000` inner query that the first
download used. -/
theorem sprintf_applied_twice :
    sql_query_filled = sqlTrunk ++ limitSp ++ toString sample_size ++ newlineS ∧
    countPercentS sql_query_filled.data = 0 ∧
    sprintfS sql_query_filled (toString sample_size) = sql_query_filled ∧
    train_query = rPaste [selectFromOpen, sql_query_filled, whereTrainClose] ∧
    eval_query = rPaste [selectFromOpen, sql_query_filled, whereEvalClose] ∧
    List.IsInfix limitFilled.data train_query.data ∧
    List.IsInfix limitFilled.data eval_query.data ∧
    List.IsInfix sql_query_filled.data train_query.data ∧
    List.IsInfix sql_query_filled.data eval_query.data :=
  ⟨by decide, by decide, by decide, by decide, by decide, by decide, by decide,
    by decide, by decide⟩

/-! ### The mlflow_gcp MLproject training-job manifest -/

/-- The type of a declared MLproject parameter, as written in the YAML. -/
inductive PType
  | string
  | int
  | uri
  deriving DecidableEq

/-- The default value of a declared MLproject parameter: a YAML string or
integer scalar. -/
inductive PDefault
  | str (s : String)
  | int (n : Nat)
  deriving DecidableEq

/-- One declared parameter of the manifest: its name, its `type:` entry
and its `default:` entry. -/
structure MLParam where
  name : String
  type : PType
  default : PDefault
  deriving DecidableEq

/-- The eight parameters of `entry_points.main.parameters`, verbatim. -/
def mlflowParams : List MLParam :=
  [⟨"job_dir", PType.string, PDefault.str ("/tmp/")⟩,
   ⟨"num_epochs", PType.int, PDefault.int 10⟩,
   ⟨"train_steps", PType.int, PDefault.int 1000⟩,
   ⟨"eval_steps", PType.int, PDefault.int 1⟩,
   ⟨"batch_size", PType.int, PDefault.int 64⟩,
   ⟨"train_files", PType.string,
     PDefault.str ("gs://cloud-samples-data/ml-engine/census/data/adult.data.csv")⟩,
   ⟨"eval_files", PType.string,
     PDefault.str ("gs://cloud-samples-data/ml-engine/census/data/adult.test.csv")⟩,
   ⟨"mlflow_tracking_uri", PType.uri, PDefault.str ("")⟩]

/-- The `entry_points.main.command` block scalar, verbatim (dedented per
YAML block-scalar rules). -/
def mlCommand : String := "python -m trainer.task --job-dir {job_dir} \\\n    --num-epochs {num_epochs} \\\n    --train-steps {train_steps} \\\n    --eval-steps {eval_steps} \\\n    --train-files {train_files} \\\n    --eval-files {eval_files} \\\n    --batch-size {batch_size} \\\n    --mlflow-tracking-uri {mlflow_tracking_uri}\n"

/-- Scanner state for `placeholders`: outside a placeholder (`none`) or
inside one with the characters read so far (`some`, reversed). -/
def placeholdersAux : List Char → Option (List Char) → List String → List String
  | [], _, acc => acc.reverse
  | c :: rest, none, acc =>
    if c = '\x7b' then placeholdersAux rest (some []) acc
    else placeholdersAux rest none acc
  | c :: rest, some cur, acc =>
    if c = '\x7d' then placeholdersAux rest none (String.mk cur.reverse :: acc)
    else placeholdersAux rest (some (c :: cur)) acc

/-- The list of `\x7bname\x7d` placeholder names occurring in a command
template, in order. -/
def placeholders (s : String) : List String := placeholdersAux s.data none []

/-- C6: Every one of the eight declared parameters of the training-job
manifest has a declared type among string, int and uri and a default
value; every declared parameter name occurs exactly once as a placeholder
in the command template; and every placeholder of the command template is
the name of a declared parameter. -/
theorem mlproject_manifest_consistent :
    mlflowParams.length = 8 ∧
    (∀ p ∈ mlflowParams,
      p.type = PType.string ∨ p.type = PType.int ∨ p.type = PType.uri) ∧
    (∀ p ∈ mlflowParams, (placeholders mlCommand).count p.name = 1) ∧
    (∀ s ∈ placeholders mlCommand, s ∈ mlflowParams.map MLParam.name) := by
  decide

/-! ### The notebook as a straight-line sequence of steps -/

/-- The kinds of external calls the notebook makes.  The notebook is a
linear sequence of cells with no branching, looping or concurrency, so its
execution is embedded as a fixed list of these steps. -/
inductive Step
  | authenticate
  | query
  | download
  | view
  | plot
  | splitQuery
  | splitDownload
  | makeDir
  | writeTrainCsv
  | writeEvalCsv
  | uploadShell
  deriving DecidableEq

/-- The straight-line execution of the notebook, cell by cell:
`bq_auth`; the base query and its download; `head`, `str`, `summary`; two
ggplot charts; four `get_distinct_values` calls (each a query, a download
and two charts); the train and eval split queries and downloads;
the two count prints; `dir.create` and the two `write.table` calls; and
the three `gsutil` shell commands (`mb`, `cp`, `ls`). -/
def notebookSteps : List Step :=
  [Step.authenticate,
   Step.query, Step.download,
   Step.view, Step.view, Step.view,
   Step.plot, Step.plot,
   Step.query, Step.download, Step.plot, Step.plot,
   Step.query, Step.download, Step.plot, Step.plot,
   Step.query, Step.download, Step.plot, Step.plot,
   Step.query, Step.download, Step.plot, Step.plot,
   Step.splitQuery, Step.splitDownload, Step.splitQuery, Step.splitDownload,
   Step.view, Step.view,
   Step.makeDir, Step.writeTrainCsv, Step.writeEvalCsv,
   Step.uploadShell, Step.uploadShell, Step.uploadShell]

/-- The position of the first occurrence of a step kind in the notebook. -/
def firstIdx (s : Step) : Nat := notebookSteps.findIdx (· = s)

/-- C7: The notebook executes its steps in the fixed order authenticate,
query, download, plot, split, upload (first occurrences strictly
increasing); the single authentication step precedes every query
(including the split queries); and every shell upload command comes after
both CSV files have been written.  The embedding as one fixed list
reflects that no step is guarded by a branch, repeated in a retry loop,
or run concurrently with another. -/
theorem notebook_step_order :
    notebookSteps.count Step.authenticate = 1 ∧
    firstIdx Step.authenticate = 0 ∧
    (firstIdx Step.authenticate < firstIdx Step.query ∧
     firstIdx Step.query < firstIdx Step.download ∧
     firstIdx Step.download < firstIdx Step.plot ∧
     firstIdx Step.plot < firstIdx Step.splitQuery ∧
     firstIdx Step.splitQuery < firstIdx Step.uploadShell) ∧
    (∀ i : Fin notebookSteps.length,
      (notebookSteps.get i = Step.query ∨ notebookSteps.get i = Step.splitQuery) →
      firstIdx Step.authenticate < i.val) ∧
    notebookSteps.count Step.writeTrainCsv = 1 ∧
    notebookSteps.count Step.writeEvalCsv = 1 ∧
    (∀ i : Fin notebookSteps.length, notebookSteps.get i = Step.uploadShell →
      firstIdx Step.writeTrainCsv < i.val ∧ firstIdx Step.writeEvalCsv < i.val) := by
  decide

/-! ### Error propagation through the straight-line notebook -/

/-- Sequential execution of notebook steps against an environment `f`
that runs each external call and either succeeds or fails with an error
of type `E`.  There is no handler in the notebook, so the first failure
stops execution: the result is the list of steps actually attempted
(each exactly once, in order) and the propagated error, if any. -/
def runSteps {E : Type} (f : Step → Except E Unit) : List Step → List Step × Option E
  | [] => ([], none)
  | s :: rest =>
    match f s with
    | Except.error e => ([s], some e)
    | Except.ok _ =>
      let p := runSteps f rest
      (s :: p.1, p.2)

theorem runSteps_ok_then_error {E : Type} (f : Step → Except E Unit)
    (l₁ : List Step) (s : Step) (l₂ : List Step) (e : E)
    (h₁ : ∀ x ∈ l₁, f x = Except.ok ()) (h₂ : f s = Except.error e) :
    runSteps f (l₁ ++ s :: l₂) = (l₁ ++ [s], some e) := by
  induction l₁ with
  | nil => simp [runSteps, h₂]
  | cons c t ih =>
    have hc : f c = Except.ok () := h₁ c (List.mem_cons_self c t)
    have ht : ∀ x ∈ t, f x = Except.ok () :=
      fun x hx => h₁ x (List.mem_cons_of_mem c hx)
    simp [runSteps, hc, ih ht]

/-- C8: No step of the notebook catches, retries or translates an error.
If the external calls succeed up to some step and that step fails with
error `e`, then the whole notebook run surfaces exactly `e` (untranslated),
the attempted steps are exactly the successful prefix plus the failing
step (each attempted once, no retry), and no later step runs. -/
theorem notebook_error_propagation {E : Type} (f : Step → Except E Unit)
    (l₁ : List Step) (s : Step) (l₂ : List Step) (e : E)
    (hsplit : notebookSteps = l₁ ++ s :: l₂)
    (h₁ : ∀ x ∈ l₁, f x = Except.ok ()) (h₂ : f s = Except.error e) :
    runSteps f notebookSteps = (l₁ ++ [s], some e) := by
  rw [hsplit]
  exact runSteps_ok_then_error f l₁ s l₂ e h₁ h₂

theorem notebook_error_propagation_witness :
    runSteps (fun _ => (Except.error 7 : Except Nat Unit)) notebookSteps =
      ([Step.authenticate], some 7) :=
  notebook_error_propagation (fun _ => Except.error 7) []
    Step.authenticate (notebookSteps.drop 1) 7 (by decide)
    (fun x hx => absurd hx (List.not_mem_nil x)) rfl

/-! ### Writing the split data frames as CSV files -/

/-- An R data frame: column names and rows of already-rendered fields. -/
structure DataFrame where
  colNames : List String
  rows : List (List String)

/-- The comma separator passed to both `write.table` calls. -/
def commaSep : String := ","

/-- The lines `write.table(df, file, row.names, col.names, sep)` writes:
an optional header line of the column names, then one line per row, the
fields joined by the separator, with an optional leading row-name field. -/
def write_table (df : DataFrame) (row_names col_names : Bool) (sep : String) :
    List String :=
  (if col_names then [String.intercalate sep df.colNames] else []) ++
  (df.rows.enum.map fun p =>
    String.intercalate sep (if row_names then toString (p.1 + 1) :: p.2 else p.2))

/-- C9: With `row.names = FALSE`, `col.names = FALSE` and `sep = ","`, as
in the notebook for both `data/train_data.csv` and `data/eval_data.csv`,
the written file has no header line and no row-name column: it has exactly
one line per data-frame row, and line `i` is exactly the fields of row `i`
joined by commas. -/
theorem csv_lines_eq_rows (df : DataFrame) :
    (write_table df false false commaSep).length = df.rows.length ∧
    ∀ i : Nat, (write_table df false false commaSep).get? i =
      (df.rows.get? i).map (String.intercalate commaSep) := by
  constructor
  · simp [write_table]
  · intro i
    simp [write_table, List.getElem?_map, List.getElem?_enum]
    cases df.rows[i]? <;> rfl

/-! ### The hash key depends only on year, month and weight_pounds -/

/-- A raw row of the natality table, with the columns the base query
reads.  `weight_pounds` is the FLOAT64 column; the casts of it to a
string and the FARM_FINGERPRINT hash are external BigQuery functions and
are taken as parameters below. -/
structure SourceRow where
  year : Int
  month : Int
  weight_pounds : Float
  is_male : Bool
  mother_age : Int
  plurality : Int
  gestation_weeks : Int
  cigarette_use : Option Bool
  alcohol_use : Option Bool

/-- The argument of FARM_FINGERPRINT in the base query:
`CONCAT(CAST(YEAR AS STRING), CAST(month AS STRING),
CAST(weight_pounds AS STRING))`, with `fts` the external FLOAT64-to-string
cast. -/
def hashInput (fts : Float → String) (r : SourceRow) : String :=
  toString r.year ++ toString r.month ++ fts r.weight_pounds

/-- The key of a record: `ABS(FARM_FINGERPRINT(CONCAT(...)))`, with `fp`
the external FARM_FINGERPRINT hash. -/
def recordKey (fp : String → Int) (fts : Float → String) (r : SourceRow) : Nat :=
  absKey (fp (hashInput fts r))

/-- C10: The hash key reads only the year, month and weight_pounds
columns of a record, so any two records agreeing on those three columns
get equal keys and the same train/eval assignment, whatever their other
columns (is_male, mother_age, plurality, gestation_weeks, cigarette_use,
alcohol_use) are, for every hash function and every float-to-string
cast. -/
theorem key_depends_only_on_year_month_weight
    (fp : String → Int) (fts : Float → String) (r₁ r₂ : SourceRow)
    (hy : r₁.year = r₂.year) (hm : r₁.month = r₂.month)
    (hw : r₁.weight_pounds = r₂.weight_pounds) :
    recordKey fp fts r₁ = recordKey fp fts r₂ ∧
    trainPred (recordKey fp fts r₁) = trainPred (recordKey fp fts r₂) ∧
    evalPred (recordKey fp fts r₁) = evalPred (recordKey fp fts r₂) := by
  have h : hashInput fts r₁ = hashInput fts r₂ := by
    unfold hashInput
    rw [hy, hm, hw]
  have hk : recordKey fp fts r₁ = recordKey fp fts r₂ := by
    unfold recordKey
    rw [h]
  exact ⟨hk, by rw [hk], by rw [hk]⟩

/-- A concrete record of the natality table. -/
def rowA : SourceRow := ⟨2001, 5, 7.25, true, 30, 1, 38, some true, none⟩

/-- A record agreeing with `rowA` on year, month and weight_pounds only. -/
def rowB : SourceRow := ⟨2001, 5, 7.25, false, 22, 2, 40, none, some false⟩

theorem key_depends_witness :
    (rowA.year = rowB.year ∧ rowA.month = rowB.month ∧
      rowA.weight_pounds = rowB.weight_pounds) ∧
    (recordKey (fun _ => 0) (fun _ => "") rowA =
        recordKey (fun _ => 0) (fun _ => "") rowB ∧
      trainPred (recordKey (fun _ => 0) (fun _ => "") rowA) =
        trainPred (recordKey (fun _ => 0) (fun _ => "") rowB) ∧
      evalPred (recordKey (fun _ => 0) (fun _ => "") rowA) =
        evalPred (recordKey (fun _ => 0) (fun _ => "") rowB)) :=
  ⟨⟨rfl, rfl, rfl⟩,
    key_depends_only_on_year_month_weight (fun _ => 0) (fun _ => "")
      rowA rowB rfl rfl rfl⟩

theorem train_eval_split_partition_witness :
    (150 : Nat) ∈ [7, 150] ∧
    ((150 : Nat) ∈ [7, 150].filter trainPred ↔
      (150 : Nat) ∉ [7, 150].filter evalPred) :=
  ⟨by decide, (train_eval_split_partition.2 [7, 150]).2 150 (by decide)⟩

/-- The first declared parameter of the manifest. -/
def jobDirParam : MLParam := ⟨"job_dir", PType.string, PDefault.str ("/tmp/")⟩

theorem mlproject_manifest_witness :
    jobDirParam ∈ mlflowParams ∧
    (placeholders mlCommand).count jobDirParam.name = 1 :=
  ⟨by decide, mlproject_manifest_consistent.2.2.1 jobDirParam (by decide)⟩

theorem notebook_step_order_witness :
    (notebookSteps.get ⟨1, by decide⟩ = Step.query ∨
      notebookSteps.get ⟨1, by decide⟩ = Step.splitQuery) ∧
    firstIdx Step.authenticate < 1 :=
  ⟨Or.inl (by decide),
    notebook_step_order.2.2.2.1 ⟨1, by decide⟩ (Or.inl (by decide))⟩
